import Mathlib

/-!
Verification development for the DeepReg grouped data loader and the
preprocessing transforms.

Sources embedded:
* `deepreg/dataset/preprocess.py` (present in the repository) — the
  `AffineTransformation3D` and `DDFTransformation3D` classes and
  `resize_inputs`, with the external tensor collaborators
  (`layer_util.resample`, `layer_util.random_transform_generator`,
  `layer_util.resize3d`, ...) abstracted as function parameters.
* `deepreg/dataset/loader/grouped_loader.py` — this file is NOT in the
  repository sources (only its unit tests are), so the loader is modelled
  from the specification (each such definition carries a doc comment
  starting with "Modelled from the spec:").
-/

/-! ## Grouped data loader (spec-modelled) -/

/-- Modelled from the spec: the sampling configuration of a grouped data
loader (`SampleConfig` in the spec, §3).  The float probability is
represented as a rational number. -/
structure SampleConfig where
  labeled : Bool
  sample_label : String
  intra_group_prob : ℚ
  intra_group_option : String
  sample_image_in_group : Bool
  seed : Option Nat
deriving DecidableEq

/-- Modelled from the spec: a per-role file-loader collaborator handle; the
only observable required by the spec (§6) is whether it has been closed. -/
structure FileLoaderHandle where
  closed : Bool
deriving DecidableEq

/-- Modelled from the spec: all images of a dataset with group sizes `ns`,
as (group_id, image_id) pairs, in group-major order (spec §3: a Dataset is
an ordered sequence of Groups; each Group an ordered collection). -/
def datasetImages (ns : List Nat) : List (Nat × Nat) :=
  (List.range ns.length).flatMap
    (fun g => (List.range (ns.getD g 0)).map (fun i => (g, i)))

/-- Modelled from the spec (§4.3): the inter-group sample indices are all
ordered distinct-image pairs of the dataset minus the ordered pairs that
fall within the same group, i.e. all ordered pairs whose groups differ. -/
def get_inter_sample_indices (ns : List Nat) :
    List ((Nat × Nat) × (Nat × Nat)) :=
  ((datasetImages ns).product (datasetImages ns)).filter
    (fun p => p.1.1 != p.2.1)

/-- Modelled from the spec (§4.3): intra-group (moving, fixed) image-index
pairs of one group of size `n`, for a recognized direction: `forward` has
the moving position strictly precede the fixed one, `backward` strictly
follow it, and `unconstrained` allows both orderings.  Only consulted after
the direction has been validated. -/
def intraGroupPairs (opt : String) (n : Nat) : List (Nat × Nat) :=
  if opt = "forward" then
    (List.range n).flatMap (fun j => (List.range j).map (fun i => (i, j)))
  else if opt = "backward" then
    (List.range n).flatMap (fun i => (List.range i).map (fun j => (i, j)))
  else
    ((List.range n).product (List.range n)).filter (fun p => p.1 != p.2)

/-- Modelled from the spec (§4.3, §4.2): the intra-group sample indices,
computed per group and concatenated; an unrecognized direction literal
fails with an error echoing the offending value (spec §7: the message
echoes the invalid value; there is no silent fallback). -/
def get_intra_sample_indices (ns : List Nat) (opt : String) :
    Except String (List ((Nat × Nat) × (Nat × Nat))) :=
  if opt = "forward" ∨ opt = "backward" ∨ opt = "unconstrained" then
    Except.ok ((List.range ns.length).flatMap (fun g =>
      (intraGroupPairs opt (ns.getD g 0)).map (fun p => ((g, p.1), (g, p.2)))))
  else
    Except.error ("Unknown intra_group_option, got " ++ opt)

/-- Modelled from the spec (§9): the explicit seeded pseudo-random
generator owned by the sample-index generator; a linear congruential step
on the internal state. -/
def lcg (s : Nat) : Nat := (1103515245 * s + 12345) % 2147483648

/-- Modelled from the spec (§9): draw a number below `bound` while
advancing the generator state. -/
def randBelow (s bound : Nat) : Nat × Nat :=
  let s' := lcg s
  (s' % bound, s')

/-- Modelled from the spec (§4.3): a Bernoulli draw with success
probability `prob`, used to choose intra-group versus inter-group
pairing on each mixed-sampling draw. -/
def bernoulliDraw (prob : ℚ) (s : Nat) : Bool × Nat :=
  let r := randBelow s 1000000
  (decide (Int.ofNat (r.1 * prob.den) < prob.num * 1000000), r.2)

/-- Modelled from the spec (§4.3): the valid intra-group partner positions
for a representative image at position `i` of a group of size `n`, under
the chosen direction policy. -/
def intraPartners (opt : String) (n i : Nat) : List Nat :=
  if opt = "forward" then (List.range n).filter (fun j => i < j)
  else if opt = "backward" then (List.range n).filter (fun j => j < i)
  else (List.range n).filter (fun j => j != i)

/-- Modelled from the spec (§4.3, mixed sampling): one draw for group `g`:
the group contributes one uniformly chosen representative image, a
Bernoulli draw chooses intra- versus inter-group pairing, and the partner
is sampled uniformly among the valid partners under the chosen policy; an
unrecognized direction is rejected at the moment it is consumed, echoing
the offending value. -/
def drawSample (ns : List Nat) (prob : ℚ) (opt : String) (g : Nat)
    (s : Nat) : Except String (((Nat × Nat) × (Nat × Nat)) × Nat) :=
  let n := ns.getD g 0
  let ri := randBelow s n
  let rb := bernoulliDraw prob ri.2
  if rb.1 then
    if opt = "forward" ∨ opt = "backward" ∨ opt = "unconstrained" then
      let partners := intraPartners opt n ri.1
      if partners.length = 0 then
        Except.error "no valid intra-group partner"
      else
        let rp := randBelow rb.2 partners.length
        Except.ok (((g, ri.1), (g, partners.getD rp.1 0)), rp.2)
    else
      Except.error ("Unknown intra_group_option, got " ++ opt)
  else
    let partners := (datasetImages ns).filter (fun b => b.1 != g)
    if partners.length = 0 then
      Except.error "we need at least two groups"
    else
      let rp := randBelow rb.2 partners.length
      Except.ok (((g, ri.1), partners.getD rp.1 (0, 0)), rp.2)

/-- A generated sample: moving index, fixed index, and the caller-facing
integer indices accompanying the pair (spec §4.4). -/
abbrev SampleOut := (Nat × Nat) × (Nat × Nat) × List Nat

/-- Modelled from the spec (§4.4): the caller-facing indices emitted with
a pair are the integer identifiers of the pair. -/
def mkSample (p : (Nat × Nat) × (Nat × Nat)) : SampleOut :=
  (p.1, p.2, [p.1.1, p.1.2, p.2.1, p.2.2])

/-- Modelled from the spec (§4.3, §4.4): run one lazy-random draw per
listed group, threading the seeded generator state; a failed draw aborts
the sequence with its error. -/
def runDraws (ns : List Nat) (prob : ℚ) (opt : String) :
    List Nat → Nat → Except String (List SampleOut)
  | [], _ => Except.ok []
  | g :: gs, s =>
    (drawSample ns prob opt g s).bind (fun ps =>
      (runDraws ns prob opt gs ps.2).map (fun rest => mkSample ps.1 :: rest))

/-- Modelled from the spec (§4.4): a seeded Fisher–Yates reordering of the
exhaustive list, with explicit fuel equal to the list length. -/
def seededShuffleAux :
    Nat → Nat → List ((Nat × Nat) × (Nat × Nat)) →
    List ((Nat × Nat) × (Nat × Nat))
  | 0, _, l => l
  | fuel + 1, s, l =>
    match l with
    | [] => []
    | _ :: _ =>
      let r := randBelow s l.length
      l.getD r.1 ((0, 0), (0, 0)) :: seededShuffleAux fuel r.2 (l.eraseIdx r.1)

/-- Modelled from the spec (§4.4): the seeded ordering applied to the
exhaustive sample-index list. -/
def seededShuffle (s : Nat) (l : List ((Nat × Nat) × (Nat × Nat))) :
    List ((Nat × Nat) × (Nat × Nat)) :=
  seededShuffleAux l.length s l

/-- Modelled from the spec (§4.5): the grouped data loader state: group
sizes, the immutable configuration, the cached exhaustive sample-index
list (absent in lazy-random mode), the total sample count, and the two
per-role file-loader handles. -/
structure GroupedDataLoader where
  num_images_per_group : List Nat
  config : SampleConfig
  sample_indices : Option (List ((Nat × Nat) × (Nat × Nat)))
  num_samples : Nat
  loader_moving_image : FileLoaderHandle
  loader_fixed_image : FileLoaderHandle
deriving DecidableEq

/-- Modelled from the spec (§4.2, §4.5): loader construction.  Validation
fails fast: inter-group sampling (probability below one) needs at least
two groups; mixing intra- and inter-group sampling without per-group image
sub-sampling is not supported.  With per-group sub-sampling the loader is
lazy (no cached list, one sample per group per pass); otherwise the
exhaustive list is cached eagerly and its length is the sample count; the
Python attribute written "_num_samples" is the field `num_samples`. -/
def GroupedDataLoader.init (ns : List Nat) (cfg : SampleConfig) :
    Except String GroupedDataLoader :=
  if cfg.intra_group_prob < 1 ∧ ns.length < 2 then
    Except.error "we need at least two groups"
  else if cfg.sample_image_in_group = false ∧
      0 < cfg.intra_group_prob ∧ cfg.intra_group_prob < 1 then
    Except.error "Mixing intra and inter groups is not supported"
  else if cfg.sample_image_in_group then
    Except.ok
      { num_images_per_group := ns
        config := cfg
        sample_indices := none
        num_samples := ns.length
        loader_moving_image := { closed := false }
        loader_fixed_image := { closed := false } }
  else if cfg.intra_group_prob = 0 then
    Except.ok
      { num_images_per_group := ns
        config := cfg
        sample_indices := some (get_inter_sample_indices ns)
        num_samples := (get_inter_sample_indices ns).length
        loader_moving_image := { closed := false }
        loader_fixed_image := { closed := false } }
  else
    match get_intra_sample_indices ns cfg.intra_group_option with
    | Except.error e => Except.error e
    | Except.ok l =>
      Except.ok
        { num_images_per_group := ns
          config := cfg
          sample_indices := some l
          num_samples := l.length
          loader_moving_image := { closed := false }
          loader_fixed_image := { closed := false } }

/-- Modelled from the spec (§4.4, §4.5): the restartable sample sequence:
the exhaustive path emits the cached list in the seeded order; the
lazy-random path performs one seeded draw per group.  The whole sequence
is a function of the loader state alone, so it is fully determined by the
configuration seed. -/
def GroupedDataLoader.sample_index_generator (L : GroupedDataLoader) :
    Except String (List SampleOut) :=
  match L.sample_indices with
  | some l =>
    Except.ok ((seededShuffle (L.config.seed.getD 0) l).map mkSample)
  | none =>
    runDraws L.num_images_per_group L.config.intra_group_prob
      L.config.intra_group_option
      (List.range L.num_images_per_group.length) (L.config.seed.getD 0)

/-- Modelled from the spec (§4.5): closing releases both per-role
file-loader collaborators; it only sets the handles to closed, so it is
idempotent. -/
def GroupedDataLoader.close (L : GroupedDataLoader) : GroupedDataLoader :=
  { L with
    loader_moving_image := { closed := true }
    loader_fixed_image := { closed := true } }

/-- The concatenated drawn indices of one full consumption of a freshly
built loader's sample sequence (the quantity compared across seeds by the
repository's generator test). -/
def drawnIndices (ns : List Nat) (cfg : SampleConfig) : Option (List Nat) :=
  match GroupedDataLoader.init ns cfg with
  | Except.error _ => none
  | Except.ok L =>
    match L.sample_index_generator with
    | Except.error _ => none
    | Except.ok samples => some (samples.flatMap (fun s => s.2.2))

/-! ## Preprocessing transforms (from deepreg/dataset/preprocess.py) -/

/-- Python tuple comparison as used by the two assert statements in
DDFTransformation3D.__init__: lexicographic element-wise comparison. -/
def pyTupleLe : List Nat → List Nat → Bool
  | [], _ => true
  | _ :: _, [] => false
  | a :: as', b :: bs' =>
    if a < b then true
    else if b < a then false
    else pyTupleLe as' bs'

/-- The input/output dictionary of preprocess.transform and resize_inputs:
moving/fixed image and indices are always present; the two labels may be
absent (a key missing from the Python dict, read with dict.get). -/
structure PreprocessInputs (T I : Type) where
  moving_image : T
  fixed_image : T
  moving_label : Option T
  fixed_label : Option T
  indices : I
deriving DecidableEq

/-- AffineTransformation3D state: batch size, scale, and the two reference
grids built by layer_util.get_reference_grid (type G is abstract). -/
structure AffineTransformation3D (G : Type) where
  batch_size : Nat
  scale : ℚ
  moving_grid_ref : G
  fixed_grid_ref : G

/-- AffineTransformation3D.transform: generates one random transform for
the moving role and one for the fixed role (threading the random state R),
warps both images, and — when a moving label is present — warps both
labels with the role's already-generated transform.  The external
collaborators are parameters: gen is layer_util.random_transform_generator
(batch_size, scale, random state) and resample is the static _transform
(image, grid_ref, transforms).  When moving_label is present but
fixed_label is absent the Python code would fail inside the resampling
call; the embedding maps over the Option instead. -/
def AffineTransformation3D.transform {G T I Tr R : Type}
    (self : AffineTransformation3D G)
    (gen : Nat → ℚ → R → Tr × R) (resample : T → G → Tr → T)
    (rng : R) (inputs : PreprocessInputs T I) : PreprocessInputs T I :=
  let moving_transforms := (gen self.batch_size self.scale rng).1
  let rng1 := (gen self.batch_size self.scale rng).2
  let fixed_transforms := (gen self.batch_size self.scale rng1).1
  let moving_image := resample inputs.moving_image self.moving_grid_ref moving_transforms
  let fixed_image := resample inputs.fixed_image self.fixed_grid_ref fixed_transforms
  match inputs.moving_label with
  | none =>
    { moving_image := moving_image
      fixed_image := fixed_image
      moving_label := none
      fixed_label := none
      indices := inputs.indices }
  | some ml =>
    let moving_label := resample ml self.moving_grid_ref moving_transforms
    let fixed_label :=
      inputs.fixed_label.map (fun fl => resample fl self.fixed_grid_ref fixed_transforms)
    { moving_image := moving_image
      fixed_image := fixed_image
      moving_label := some moving_label
      fixed_label := fixed_label
      indices := inputs.indices }

/-- DDFTransformation3D state: image sizes, batch size, field strength,
low-resolution size, and the two reference grids. -/
structure DDFTransformation3D (G : Type) where
  moving_image_size : List Nat
  fixed_image_size : List Nat
  batch_size : Nat
  field_strength : Nat
  lowres_size : List Nat
  moving_grid_ref : G
  fixed_grid_ref : G

/-- DDFTransformation3D.__init__: the two Python assert statements compare
the tuples with Python tuple (lexicographic) order, first against the
moving size, then against the fixed size; a failed assert aborts
construction (None) before any state is built.  getRefGrid abstracts
tf.expand_dims(layer_util.get_reference_grid(size), axis=0). -/
def DDFTransformation3D.init {G : Type} (getRefGrid : List Nat → G)
    (moving_image_size fixed_image_size : List Nat)
    (batch_size field_strength : Nat) (lowres_size : List Nat) :
    Option (DDFTransformation3D G) :=
  if pyTupleLe lowres_size moving_image_size then
    if pyTupleLe lowres_size fixed_image_size then
      some
        { moving_image_size := moving_image_size
          fixed_image_size := fixed_image_size
          batch_size := batch_size
          field_strength := field_strength
          lowres_size := lowres_size
          moving_grid_ref := getRefGrid moving_image_size
          fixed_grid_ref := getRefGrid fixed_image_size }
    else none
  else none

/-- DDFTransformation3D.transform: same structure as the affine transform,
except that the generator (layer_util.random_ddf_transform_generator) also
receives the role's image size, the field strength and the lowres size;
warp abstracts layer_util.warp_image_ddf. -/
def DDFTransformation3D.transform {G T I Tr R : Type}
    (self : DDFTransformation3D G)
    (gen : Nat → List Nat → Nat → List Nat → R → Tr × R)
    (warp : T → G → Tr → T)
    (rng : R) (inputs : PreprocessInputs T I) : PreprocessInputs T I :=
  let moving_transforms :=
    (gen self.batch_size self.moving_image_size self.field_strength self.lowres_size rng).1
  let rng1 :=
    (gen self.batch_size self.moving_image_size self.field_strength self.lowres_size rng).2
  let fixed_transforms :=
    (gen self.batch_size self.fixed_image_size self.field_strength self.lowres_size rng1).1
  let moving_image := warp inputs.moving_image self.moving_grid_ref moving_transforms
  let fixed_image := warp inputs.fixed_image self.fixed_grid_ref fixed_transforms
  match inputs.moving_label with
  | none =>
    { moving_image := moving_image
      fixed_image := fixed_image
      moving_label := none
      fixed_label := none
      indices := inputs.indices }
  | some ml =>
    let moving_label := warp ml self.moving_grid_ref moving_transforms
    let fixed_label :=
      inputs.fixed_label.map (fun fl => warp fl self.fixed_grid_ref fixed_transforms)
    { moving_image := moving_image
      fixed_image := fixed_image
      moving_label := some moving_label
      fixed_label := fixed_label
      indices := inputs.indices }

/-- resize_inputs: resizes the two images (and, when the moving label is
present, the two labels) to the given sizes and passes indices through;
resize3d abstracts layer_util.resize3d (image, size). -/
def resize_inputs {T I : Type} (resize3d : T → List Nat → T)
    (inputs : PreprocessInputs T I)
    (moving_image_size fixed_image_size : List Nat) : PreprocessInputs T I :=
  let moving_image := resize3d inputs.moving_image moving_image_size
  let fixed_image := resize3d inputs.fixed_image fixed_image_size
  match inputs.moving_label with
  | none =>
    { moving_image := moving_image
      fixed_image := fixed_image
      moving_label := none
      fixed_label := none
      indices := inputs.indices }
  | some ml =>
    { moving_image := moving_image
      fixed_image := fixed_image
      moving_label := some (resize3d ml moving_image_size)
      fixed_label :=
        inputs.fixed_label.map (fun fl => resize3d fl fixed_image_size)
      indices := inputs.indices }

/-! ## List helper lemmas -/

theorem product_eq_flatMap {α β : Type} (l₁ : List α) (l₂ : List β) :
    l₁.product l₂ = l₁.flatMap (fun a => l₂.map (Prod.mk a)) := rfl

theorem sum_flatMap_nat {α : Type} (l : List α) (f : α → List Nat) :
    ((l.flatMap f).sum = (l.map (fun a => (f a).sum)).sum) := by
  induction l with
  | nil => rfl
  | cons a t ih => simp [List.flatMap_cons, ih]

theorem length_filter_add {α : Type} (l : List α) (p : α → Bool) :
    (l.filter p).length + (l.filter (fun a => !(p a))).length = l.length := by
  induction l with
  | nil => rfl
  | cons a t ih =>
    cases hpa : p a <;> simp [List.filter_cons, hpa] <;> omega

theorem map_range_getD {β : Type} (ns : List Nat) (f : Nat → β) :
    (List.range ns.length).map (fun g => f (ns.getD g 0)) = ns.map f := by
  induction ns with
  | nil => rfl
  | cons a t ih =>
    rw [List.length_cons, List.range_succ_eq_map, List.map_cons, List.map_map]
    have h1 : ((fun g => f ((a :: t).getD g 0)) ∘ Nat.succ) =
        (fun g => f (t.getD g 0)) := by
      funext g; rw [Function.comp_apply, List.getD_cons_succ]
    rw [h1, ih, List.getD_cons_zero, List.map_cons]

theorem sum_map_ite_range (g : Nat) (f : Nat → Nat) (k : Nat) :
    ((List.range k).map (fun j => if j = g then f j else 0)).sum =
      if g < k then f g else 0 := by
  induction k with
  | zero => simp
  | succ m ih =>
    rw [List.range_succ, List.map_append, List.sum_append, ih]
    by_cases h1 : g < m
    · have h2 : ¬(m = g) := by omega
      simp [h1, h2, show g < m + 1 by omega]
    · by_cases h2 : g = m
      · subst h2; simp [h1]
      · have h3 : ¬(m = g) := fun hc => h2 hc.symm
        simp [h1, h3, show ¬(g < m + 1) by omega]

theorem two_mul_sum_range (n : Nat) : 2 * (List.range n).sum = n * (n - 1) := by
  induction n with
  | zero => rfl
  | succ m ih =>
    rw [List.range_succ, List.sum_append]
    simp only [List.sum_cons, List.sum_nil]
    cases m with
    | zero => rfl
    | succ p =>
      simp only [Nat.succ_sub_one] at ih ⊢
      have : 2 * ((List.range (p + 1)).sum + (p + 1 + 0)) =
          2 * (List.range (p + 1)).sum + 2 * (p + 1) := by ring
      rw [this, ih]; ring

theorem filter_beq_range_length (i n : Nat) :
    ((List.range n).filter (fun j => i == j)).length =
      if i < n then 1 else 0 := by
  induction n with
  | zero => simp
  | succ m ih =>
    rw [List.range_succ, List.filter_append, List.length_append, ih]
    by_cases h1 : i < m
    · have h2 : ¬(i = m) := by omega
      simp [h1, h2, show i < m + 1 by omega]
    · by_cases h2 : i = m
      · subst h2; simp [h1]
      · simp [h1, h2, show ¬(i < m + 1) by omega]

theorem sum_map_add_nat {α : Type} (l : List α) (f g : α → Nat) :
    (l.map (fun x => f x + g x)).sum = (l.map f).sum + (l.map g).sum := by
  induction l with
  | nil => rfl
  | cons a t ih => simp [ih]; ring

/-! ## Inter-group enumeration lemmas -/

theorem datasetImages_length (ns : List Nat) :
    (datasetImages ns).length = ns.sum := by
  unfold datasetImages
  rw [List.length_flatMap]
  have h1 : (List.map
      (List.length ∘ fun g => (List.range (ns.getD g 0)).map (fun i => (g, i)))
      (List.range ns.length)) =
      (List.range ns.length).map (fun g => ns.getD g 0) := by
    refine List.map_congr_left ?_
    intro g _
    simp [Function.comp]
  rw [h1]
  have h2 := map_range_getD ns (fun n => n)
  calc ((List.range ns.length).map (fun g => ns.getD g 0)).sum
      = (ns.map (fun n => n)).sum := by rw [h2]
    _ = ns.sum := by simp

theorem mem_datasetImages {ns : List Nat} {a : Nat × Nat}
    (h : a ∈ datasetImages ns) : a.1 < ns.length := by
  unfold datasetImages at h
  rw [List.mem_flatMap] at h
  obtain ⟨g, hg, hm⟩ := h
  rw [List.mem_map] at hm
  obtain ⟨i, _, rfl⟩ := hm
  exact List.mem_range.mp hg

theorem datasetImages_nodup (ns : List Nat) : (datasetImages ns).Nodup := by
  unfold datasetImages
  rw [List.nodup_flatMap]
  constructor
  · intro g _
    exact (List.nodup_range _).map (fun i j h => congrArg Prod.snd h)
  · refine (List.pairwise_lt_range _).imp ?_
    intro g₁ g₂ hlt x hx₁ hx₂
    rw [List.mem_map] at hx₁ hx₂
    obtain ⟨i₁, _, rfl⟩ := hx₁
    obtain ⟨i₂, _, he⟩ := hx₂
    exact absurd (congrArg Prod.fst he).symm (Nat.ne_of_lt hlt)

theorem datasetImages_filter_group (ns : List Nat) (g : Nat)
    (hg : g < ns.length) :
    ((datasetImages ns).filter (fun b => g == b.1)).length = ns.getD g 0 := by
  unfold datasetImages
  rw [List.filter_flatMap, List.length_flatMap]
  have h1 : (List.map
      (List.length ∘ fun a =>
        ((List.range (ns.getD a 0)).map (fun i => (a, i))).filter
          (fun b => g == b.1))
      (List.range ns.length)) =
      (List.range ns.length).map
        (fun j => if j = g then ns.getD j 0 else 0) := by
    refine List.map_congr_left ?_
    intro j _
    rw [Function.comp_apply, List.filter_map, List.length_map]
    by_cases hj : j = g
    · rw [if_pos hj]
      have hb : ((fun b : Nat × Nat => g == b.1) ∘ fun i => (j, i)) =
          fun _ => true := by
        funext i; simp [Function.comp, hj]
      rw [hb]
      simp
    · rw [if_neg hj]
      have hb : ((fun b : Nat × Nat => g == b.1) ∘ fun i => (j, i)) =
          fun _ => false := by
        funext i
        simp only [Function.comp_apply, beq_eq_false_iff_ne]
        exact fun hc => hj hc.symm
      rw [hb]
      simp
  rw [h1, sum_map_ite_range g (fun j => ns.getD j 0) ns.length, if_pos hg]

theorem sum_over_images (ns : List Nat) (f : Nat → Nat) :
    ((datasetImages ns).map (fun a => f a.1)).sum =
      ((List.range ns.length).map (fun g => ns.getD g 0 * f g)).sum := by
  unfold datasetImages
  rw [List.map_flatMap, sum_flatMap_nat]
  refine congrArg List.sum (List.map_congr_left ?_)
  intro g _
  rw [List.map_map]
  have hc : ((fun a : Nat × Nat => f a.1) ∘ fun i => (g, i)) =
      fun _ => f g := by
    funext i; rfl
  rw [hc, List.map_const', List.sum_replicate, List.length_range, smul_eq_mul]

theorem product_same_group_length (ns : List Nat) :
    (((datasetImages ns).product (datasetImages ns)).filter
      (fun p => p.1.1 == p.2.1)).length = (ns.map (fun n => n * n)).sum := by
  rw [product_eq_flatMap, List.filter_flatMap, List.length_flatMap]
  have h1 : (List.map
      (List.length ∘ fun a =>
        ((datasetImages ns).map (Prod.mk a)).filter (fun p => p.1.1 == p.2.1))
      (datasetImages ns)) =
      (datasetImages ns).map (fun a => ns.getD a.1 0) := by
    refine List.map_congr_left ?_
    intro a ha
    rw [Function.comp_apply, List.filter_map, List.length_map]
    have hb : ((fun p : (Nat × Nat) × (Nat × Nat) => p.1.1 == p.2.1) ∘
        Prod.mk a) = fun b => a.1 == b.1 := by
      funext b; rfl
    rw [hb]
    exact datasetImages_filter_group ns a.1 (mem_datasetImages ha)
  rw [h1]
  have h2 := sum_over_images ns (fun g => ns.getD g 0)
  rw [h2]
  have h3 := map_range_getD ns (fun n => n * n)
  calc ((List.range ns.length).map
        (fun g => ns.getD g 0 * ns.getD g 0)).sum
      = ((List.range ns.length).map
        (fun g => (fun n => n * n) (ns.getD g 0))).sum := rfl
    _ = (ns.map (fun n => n * n)).sum := by rw [h3]

theorem get_inter_split (ns : List Nat) :
    (get_inter_sample_indices ns).length + (ns.map (fun n => n * n)).sum =
      ns.sum * ns.sum := by
  have hsplit := length_filter_add
    ((datasetImages ns).product (datasetImages ns))
    (fun p => p.1.1 != p.2.1)
  have hnot : (fun p : (Nat × Nat) × (Nat × Nat) => !(p.1.1 != p.2.1)) =
      (fun p => p.1.1 == p.2.1) := by
    funext p; simp [bne]
  rw [hnot, product_same_group_length] at hsplit
  have hprod : ((datasetImages ns).product (datasetImages ns)).length =
      ns.sum * ns.sum := by
    have h := List.length_product (datasetImages ns) (datasetImages ns)
    rw [datasetImages_length] at h
    exact h
  rw [hprod] at hsplit
  exact hsplit

theorem sq_split (a : Nat) : a * (a - 1) + a = a * a := by
  cases a with
  | zero => rfl
  | succ m => simp [Nat.succ_sub_one]; ring

theorem get_inter_length (ns : List Nat) :
    (get_inter_sample_indices ns).length =
      ns.sum * (ns.sum - 1) - (ns.map (fun n => n * (n - 1))).sum := by
  have h1 := get_inter_split ns
  have h2 : (ns.map (fun n => n * (n - 1))).sum + ns.sum =
      (ns.map (fun n => n * n)).sum := by
    have := sum_map_add_nat ns (fun n => n * (n - 1)) (fun n => n)
    have he : (ns.map (fun n => n * (n - 1) + n)).sum =
        (ns.map (fun n => n * n)).sum := by
      refine congrArg List.sum (List.map_congr_left ?_)
      intro a _
      exact sq_split a
    have hid : (ns.map (fun n => n)).sum = ns.sum := by simp
    rw [he, hid] at this
    exact this.symm
  have h3 := sq_split ns.sum
  generalize hQ : (ns.map (fun n => n * n)).sum = Q at h1 h2
  generalize hT : (ns.map (fun n => n * (n - 1))).sum = T at h2 ⊢
  generalize hM : ns.sum * (ns.sum - 1) = M at h3 ⊢
  generalize hP : ns.sum * ns.sum = P at h1 h3
  omega

theorem get_inter_nodup (ns : List Nat) :
    (get_inter_sample_indices ns).Nodup := by
  unfold get_inter_sample_indices
  exact ((datasetImages_nodup ns).product (datasetImages_nodup ns)).filter _

/-! ## Intra-group enumeration lemmas -/

theorem intraGroupPairs_tri_length (n : Nat) :
    2 * ((List.range n).flatMap
      (fun j => (List.range j).map (fun i => (i, j)))).length = n * (n - 1) := by
  rw [List.length_flatMap]
  have h1 : (List.map
      (List.length ∘ fun j => (List.range j).map (fun i => (i, j)))
      (List.range n)) = (List.range n).map (fun j => j) := by
    refine List.map_congr_left ?_
    intro j _
    simp [Function.comp]
  rw [h1]
  have h2 : ((List.range n).map (fun j => j)).sum = (List.range n).sum := by
    simp
  rw [h2]
  exact two_mul_sum_range n

theorem intraGroupPairs_forward_length (n : Nat) :
    (intraGroupPairs "forward" n).length = n * (n - 1) / 2 := by
  have h := intraGroupPairs_tri_length n
  have he : intraGroupPairs "forward" n =
      (List.range n).flatMap (fun j => (List.range j).map (fun i => (i, j))) := by
    unfold intraGroupPairs
    rw [if_pos rfl]
  rw [he]
  generalize hM : n * (n - 1) = M at h ⊢
  omega

theorem intraGroupPairs_backward_length (n : Nat) :
    (intraGroupPairs "backward" n).length = n * (n - 1) / 2 := by
  have he : intraGroupPairs "backward" n =
      (List.range n).flatMap (fun i => (List.range i).map (fun j => (i, j))) := by
    unfold intraGroupPairs
    rw [if_neg (by decide), if_pos rfl]
  have h : 2 * ((List.range n).flatMap
      (fun i => (List.range i).map (fun j => (i, j)))).length = n * (n - 1) := by
    rw [List.length_flatMap]
    have h1 : (List.map
        (List.length ∘ fun i => (List.range i).map (fun j => (i, j)))
        (List.range n)) = (List.range n).map (fun j => j) := by
      refine List.map_congr_left ?_
      intro i _
      simp [Function.comp]
    rw [h1]
    have h2 : ((List.range n).map (fun j => j)).sum = (List.range n).sum := by
      simp
    rw [h2]
    exact two_mul_sum_range n
  rw [he]
  generalize hM : n * (n - 1) = M at h ⊢
  omega

theorem range_diag_length (n : Nat) :
    (((List.range n).product (List.range n)).filter
      (fun p => p.1 == p.2)).length = n := by
  rw [product_eq_flatMap, List.filter_flatMap, List.length_flatMap]
  have h1 : (List.map
      (List.length ∘ fun i =>
        ((List.range n).map (Prod.mk i)).filter (fun p => p.1 == p.2))
      (List.range n)) = (List.range n).map (fun _ => 1) := by
    refine List.map_congr_left ?_
    intro i hi
    rw [Function.comp_apply, List.filter_map, List.length_map]
    have hb : ((fun p : Nat × Nat => p.1 == p.2) ∘ Prod.mk i) =
        fun j => i == j := by
      funext j; rfl
    rw [hb, filter_beq_range_length, if_pos (List.mem_range.mp hi)]
  rw [h1, List.map_const', List.sum_replicate, List.length_range, smul_eq_mul,
    mul_one]

theorem intraGroupPairs_unconstrained_length (n : Nat) :
    (intraGroupPairs "unconstrained" n).length = n * (n - 1) := by
  have he : intraGroupPairs "unconstrained" n =
      ((List.range n).product (List.range n)).filter (fun p => p.1 != p.2) := by
    unfold intraGroupPairs
    rw [if_neg (by decide), if_neg (by decide)]
  have hsplit := length_filter_add
    ((List.range n).product (List.range n)) (fun p => p.1 != p.2)
  have hnot : (fun p : Nat × Nat => !(p.1 != p.2)) = (fun p => p.1 == p.2) := by
    funext p; simp [bne]
  rw [hnot, range_diag_length] at hsplit
  have hprod : ((List.range n).product (List.range n)).length = n * n := by
    have h := List.length_product (List.range n) (List.range n)
    rw [List.length_range] at h
    exact h
  rw [hprod] at hsplit
  have hs := sq_split n
  rw [he]
  generalize hL : (((List.range n).product (List.range n)).filter
    (fun p => p.1 != p.2)).length = L at hsplit ⊢
  generalize hM : n * (n - 1) = M at hs ⊢
  generalize hP : n * n = P at hsplit hs
  omega

theorem intraGroupPairs_nodup (opt : String) (n : Nat) :
    (intraGroupPairs opt n).Nodup := by
  unfold intraGroupPairs
  split_ifs with h1 h2
  · rw [List.nodup_flatMap]
    constructor
    · intro j _
      exact (List.nodup_range _).map (fun a b h => congrArg Prod.fst h)
    · refine (List.pairwise_lt_range _).imp ?_
      intro j₁ j₂ hlt x hx₁ hx₂
      rw [List.mem_map] at hx₁ hx₂
      obtain ⟨i₁, _, rfl⟩ := hx₁
      obtain ⟨i₂, _, he⟩ := hx₂
      exact absurd (congrArg Prod.snd he).symm (Nat.ne_of_lt hlt)
  · rw [List.nodup_flatMap]
    constructor
    · intro i _
      exact (List.nodup_range _).map (fun a b h => congrArg Prod.snd h)
    · refine (List.pairwise_lt_range _).imp ?_
      intro i₁ i₂ hlt x hx₁ hx₂
      rw [List.mem_map] at hx₁ hx₂
      obtain ⟨j₁, _, rfl⟩ := hx₁
      obtain ⟨j₂, _, he⟩ := hx₂
      exact absurd (congrArg Prod.fst he).symm (Nat.ne_of_lt hlt)
  · exact ((List.nodup_range n).product (List.nodup_range n)).filter _

theorem intra_list_length (ns : List Nat) (opt : String) :
    ((List.range ns.length).flatMap (fun g =>
      (intraGroupPairs opt (ns.getD g 0)).map
        (fun p => ((g, p.1), (g, p.2))))).length =
      (ns.map (fun n => (intraGroupPairs opt n).length)).sum := by
  rw [List.length_flatMap]
  have h1 : (List.map
      (List.length ∘ fun g =>
        (intraGroupPairs opt (ns.getD g 0)).map (fun p => ((g, p.1), (g, p.2))))
      (List.range ns.length)) =
      (List.range ns.length).map
        (fun g => (intraGroupPairs opt (ns.getD g 0)).length) := by
    refine List.map_congr_left ?_
    intro g _
    simp [Function.comp]
  rw [h1]
  exact congrArg List.sum
    (map_range_getD ns (fun n => (intraGroupPairs opt n).length))

theorem intra_list_nodup (ns : List Nat) (opt : String) :
    ((List.range ns.length).flatMap (fun g =>
      (intraGroupPairs opt (ns.getD g 0)).map
        (fun p => ((g, p.1), (g, p.2))))).Nodup := by
  rw [List.nodup_flatMap]
  constructor
  · intro g _
    refine (intraGroupPairs_nodup opt _).map ?_
    intro p q h
    have h1 := congrArg (fun x => x.1.2) h
    have h2 := congrArg (fun x => x.2.2) h
    exact Prod.ext h1 h2
  · refine (List.pairwise_lt_range _).imp ?_
    intro g₁ g₂ hlt x hx₁ hx₂
    rw [List.mem_map] at hx₁ hx₂
    obtain ⟨p₁, _, rfl⟩ := hx₁
    obtain ⟨p₂, _, he⟩ := hx₂
    exact absurd (congrArg (fun y => y.1.1) he).symm (Nat.ne_of_lt hlt)

/-! ## Claim theorems -/

/-- C1: for every dataset with at least two groups, built with
intra_group_prob = 0 and sample_image_in_group = False, the loader's
_num_samples equals N*(N-1) - sum of n_i*(n_i-1) with N the total image
count, and the emitted sample_indices contain no duplicates (so once
sorted they contain only unique values). -/
theorem C1_inter_pair_count_unique (ns : List Nat) (cfg : SampleConfig)
    (hk : 2 ≤ ns.length) (hp : cfg.intra_group_prob = 0)
    (hs : cfg.sample_image_in_group = false) :
    ∃ L : GroupedDataLoader, ∃ l,
      GroupedDataLoader.init ns cfg = Except.ok L ∧
      L.num_samples =
        ns.sum * (ns.sum - 1) - (ns.map (fun n => n * (n - 1))).sum ∧
      L.sample_indices = some l ∧ l.Nodup := by
  have h1 : ¬(cfg.intra_group_prob < 1 ∧ ns.length < 2) :=
    fun h => absurd h.2 (by omega)
  have h2 : ¬(cfg.sample_image_in_group = false ∧
      0 < cfg.intra_group_prob ∧ cfg.intra_group_prob < 1) := by
    rw [hp]
    rintro ⟨-, h, -⟩
    exact absurd h (lt_irrefl 0)
  have h3 : ¬(cfg.sample_image_in_group = true) := by
    rw [hs]; simp
  unfold GroupedDataLoader.init
  rw [if_neg h1, if_neg h2, if_neg h3, if_pos hp]
  exact ⟨_, get_inter_sample_indices ns, rfl, get_inter_length ns, rfl,
    get_inter_nodup ns⟩

/-- Witness for C1: group sizes [2, 3], where the inter-group pair count
is 5*4 - (2*1 + 3*2) = 12. -/
theorem C1_witness :
    ∃ L : GroupedDataLoader, ∃ l,
      GroupedDataLoader.init [2, 3] ⟨true, "all", 0, "forward", false, none⟩ =
        Except.ok L ∧
      L.num_samples = 12 ∧ L.sample_indices = some l ∧ l.Nodup := by
  obtain ⟨L, l, ha, hb, hc, hd⟩ := C1_inter_pair_count_unique [2, 3]
    ⟨true, "all", 0, "forward", false, none⟩ (by decide) rfl rfl
  exact ⟨L, l, ha, hb.trans (by decide), hc, hd⟩

/-- C2: for every dataset built with intra_group_prob = 1 and
sample_image_in_group = False, _num_samples is the sum over groups of
n_i*(n_i-1)/2 for the forward and backward directions and of n_i*(n_i-1)
for the unconstrained direction, and the emitted sample_indices contain
no duplicates. -/
theorem C2_intra_pair_count_unique (ns : List Nat) (cfg : SampleConfig)
    (hp : cfg.intra_group_prob = 1) (hs : cfg.sample_image_in_group = false) :
    (cfg.intra_group_option = "forward" ∨ cfg.intra_group_option = "backward" →
      ∃ L : GroupedDataLoader, ∃ l,
        GroupedDataLoader.init ns cfg = Except.ok L ∧
        L.num_samples = (ns.map (fun n => n * (n - 1) / 2)).sum ∧
        L.sample_indices = some l ∧ l.Nodup) ∧
    (cfg.intra_group_option = "unconstrained" →
      ∃ L : GroupedDataLoader, ∃ l,
        GroupedDataLoader.init ns cfg = Except.ok L ∧
        L.num_samples = (ns.map (fun n => n * (n - 1))).sum ∧
        L.sample_indices = some l ∧ l.Nodup) := by
  have h1 : ¬(cfg.intra_group_prob < 1 ∧ ns.length < 2) := by
    rw [hp]
    rintro ⟨h, -⟩
    exact absurd h (lt_irrefl 1)
  have h2 : ¬(cfg.sample_image_in_group = false ∧
      0 < cfg.intra_group_prob ∧ cfg.intra_group_prob < 1) := by
    rw [hp]
    rintro ⟨-, -, h⟩
    exact absurd h (lt_irrefl 1)
  have h3 : ¬(cfg.sample_image_in_group = true) := by
    rw [hs]; simp
  have h4 : ¬(cfg.intra_group_prob = 0) := by
    rw [hp]; norm_num
  have key_f : ((List.range ns.length).flatMap (fun g =>
      (intraGroupPairs "forward" (ns.getD g 0)).map
        (fun p => ((g, p.1), (g, p.2))))).length =
      (ns.map (fun n => n * (n - 1) / 2)).sum := by
    rw [intra_list_length]
    exact congrArg List.sum
      (List.map_congr_left fun a _ => intraGroupPairs_forward_length a)
  have key_b : ((List.range ns.length).flatMap (fun g =>
      (intraGroupPairs "backward" (ns.getD g 0)).map
        (fun p => ((g, p.1), (g, p.2))))).length =
      (ns.map (fun n => n * (n - 1) / 2)).sum := by
    rw [intra_list_length]
    exact congrArg List.sum
      (List.map_congr_left fun a _ => intraGroupPairs_backward_length a)
  have key_u : ((List.range ns.length).flatMap (fun g =>
      (intraGroupPairs "unconstrained" (ns.getD g 0)).map
        (fun p => ((g, p.1), (g, p.2))))).length =
      (ns.map (fun n => n * (n - 1))).sum := by
    rw [intra_list_length]
    exact congrArg List.sum
      (List.map_congr_left fun a _ => intraGroupPairs_unconstrained_length a)
  unfold GroupedDataLoader.init
  rw [if_neg h1, if_neg h2, if_neg h3, if_neg h4]
  constructor
  · intro hor
    rcases hor with h | h <;> rw [h]
    · have hg : get_intra_sample_indices ns "forward" =
          Except.ok ((List.range ns.length).flatMap (fun g =>
            (intraGroupPairs "forward" (ns.getD g 0)).map
              (fun p => ((g, p.1), (g, p.2))))) := by
        unfold get_intra_sample_indices
        rw [if_pos (Or.inl rfl)]
      rw [hg]
      exact ⟨_, _, rfl, key_f, rfl, intra_list_nodup ns "forward"⟩
    · have hg : get_intra_sample_indices ns "backward" =
          Except.ok ((List.range ns.length).flatMap (fun g =>
            (intraGroupPairs "backward" (ns.getD g 0)).map
              (fun p => ((g, p.1), (g, p.2))))) := by
        unfold get_intra_sample_indices
        rw [if_pos (Or.inr (Or.inl rfl))]
      rw [hg]
      exact ⟨_, _, rfl, key_b, rfl, intra_list_nodup ns "backward"⟩
  · intro h
    rw [h]
    have hg : get_intra_sample_indices ns "unconstrained" =
        Except.ok ((List.range ns.length).flatMap (fun g =>
          (intraGroupPairs "unconstrained" (ns.getD g 0)).map
            (fun p => ((g, p.1), (g, p.2))))) := by
      unfold get_intra_sample_indices
      rw [if_pos (Or.inr (Or.inr rfl))]
    rw [hg]
    exact ⟨_, _, rfl, key_u, rfl, intra_list_nodup ns "unconstrained"⟩

/-- Witness for C2: group sizes [2, 3]: forward count 2*1/2 + 3*2/2 = 4,
unconstrained count 2*1 + 3*2 = 8. -/
theorem C2_witness :
    (∃ L : GroupedDataLoader, ∃ l,
      GroupedDataLoader.init [2, 3] ⟨true, "all", 1, "forward", false, none⟩ =
        Except.ok L ∧
      L.num_samples = 4 ∧ L.sample_indices = some l ∧ l.Nodup) ∧
    (∃ L : GroupedDataLoader, ∃ l,
      GroupedDataLoader.init [2, 3]
          ⟨true, "all", 1, "unconstrained", false, none⟩ =
        Except.ok L ∧
      L.num_samples = 8 ∧ L.sample_indices = some l ∧ l.Nodup) := by
  constructor
  · obtain ⟨L, l, ha, hb, hc, hd⟩ := (C2_intra_pair_count_unique [2, 3]
      ⟨true, "all", 1, "forward", false, none⟩ rfl rfl).1 (Or.inl rfl)
    exact ⟨L, l, ha, hb.trans (by decide), hc, hd⟩
  · obtain ⟨L, l, ha, hb, hc, hd⟩ := (C2_intra_pair_count_unique [2, 3]
      ⟨true, "all", 1, "unconstrained", false, none⟩ rfl rfl).2 rfl
    exact ⟨L, l, ha, hb.trans (by decide), hc, hd⟩

/-- C5: for every dataset with fewer than two groups, constructing a
loader with intra_group_prob below 1 fails with the
"we need at least two groups" error; construction does not succeed. -/
theorem C5_single_group_error (ns : List Nat) (cfg : SampleConfig)
    (hk : ns.length < 2) (hp : cfg.intra_group_prob < 1) :
    GroupedDataLoader.init ns cfg =
      Except.error "we need at least two groups" := by
  unfold GroupedDataLoader.init
  rw [if_pos ⟨hp, hk⟩]

/-- Witness for C5: a single group of two images with intra_group_prob 0. -/
theorem C5_witness :
    GroupedDataLoader.init [2] ⟨true, "all", 0, "forward", false, none⟩ =
      Except.error "we need at least two groups" :=
  C5_single_group_error [2] ⟨true, "all", 0, "forward", false, none⟩
    (by decide) (by norm_num)

/-- C6 counterexample: on a single-group dataset the configuration
sample_image_in_group = False with intra_group_prob = 1/2 is rejected with
the "we need at least two groups" error, not with the mixing error the
claim names for every dataset. -/
theorem C6_counterexample :
    GroupedDataLoader.init [3] ⟨true, "all", 1/2, "forward", false, none⟩ =
      Except.error "we need at least two groups" ∧
    GroupedDataLoader.init [3] ⟨true, "all", 1/2, "forward", false, none⟩ ≠
      Except.error "Mixing intra and inter groups is not supported" := by
  have h : GroupedDataLoader.init [3]
      ⟨true, "all", 1/2, "forward", false, none⟩ =
      Except.error "we need at least two groups" := by
    unfold GroupedDataLoader.init
    rw [if_pos ⟨by norm_num, by norm_num⟩]
  refine ⟨h, ?_⟩
  rw [h]
  intro hc
  injection hc with hs
  exact absurd hs (by decide)

/-- C6 (amended): on a dataset with at least two groups, constructing with
sample_image_in_group = False and 0 < intra_group_prob < 1 fails with the
"Mixing intra and inter groups is not supported" error; on a dataset with
fewer than two groups the same configuration also fails, but with the
"we need at least two groups" error, which fires first.  Either way the
configuration never produces a usable loader. -/
theorem C6_mixing_error (ns : List Nat) (cfg : SampleConfig)
    (hs : cfg.sample_image_in_group = false)
    (h0 : 0 < cfg.intra_group_prob) (h1 : cfg.intra_group_prob < 1) :
    (2 ≤ ns.length →
      GroupedDataLoader.init ns cfg =
        Except.error "Mixing intra and inter groups is not supported") ∧
    (ns.length < 2 →
      GroupedDataLoader.init ns cfg =
        Except.error "we need at least two groups") := by
  constructor
  · intro hk
    unfold GroupedDataLoader.init
    rw [if_neg (fun h => absurd h.2 (by omega)), if_pos ⟨hs, h0, h1⟩]
  · intro hk
    unfold GroupedDataLoader.init
    rw [if_pos ⟨h1, hk⟩]

/-- Witness for the amended C6: two groups give the mixing error, a single
group gives the two-groups error. -/
theorem C6_witness :
    GroupedDataLoader.init [2, 3] ⟨true, "all", 1/2, "forward", false, none⟩ =
      Except.error "Mixing intra and inter groups is not supported" ∧
    GroupedDataLoader.init [9] ⟨true, "all", 1/2, "forward", false, none⟩ =
      Except.error "we need at least two groups" :=
  ⟨(C6_mixing_error [2, 3] ⟨true, "all", 1/2, "forward", false, none⟩
      rfl (by norm_num) (by norm_num)).1 (by decide),
   (C6_mixing_error [9] ⟨true, "all", 1/2, "forward", false, none⟩
      rfl (by norm_num) (by norm_num)).2 (by decide)⟩

/-- C7: close sets the moving-image (and fixed-image) file handle to
closed, and closing twice equals closing once: the second call has no
further effect and, being a total function of the loader state, cannot
fail. -/
theorem C7_close_idempotent (L : GroupedDataLoader) :
    (L.close).loader_moving_image.closed = true ∧
    (L.close).loader_fixed_image.closed = true ∧
    L.close.close = L.close :=
  ⟨rfl, rfl, rfl⟩

/-- C10: DDFTransformation3D construction fails (the Python assert fires,
before any state is built) exactly when lowres_size is not
less-than-or-equal to both image sizes under Python tuple (lexicographic)
comparison; under the precondition it succeeds and builds the full
state. -/
theorem C10_ddf_init_assert {G : Type} (getRefGrid : List Nat → G)
    (ms fs ls : List Nat) (b fstr : Nat) :
    (¬(pyTupleLe ls ms = true ∧ pyTupleLe ls fs = true) →
      DDFTransformation3D.init getRefGrid ms fs b fstr ls = none) ∧
    (pyTupleLe ls ms = true → pyTupleLe ls fs = true →
      DDFTransformation3D.init getRefGrid ms fs b fstr ls =
        some { moving_image_size := ms, fixed_image_size := fs,
               batch_size := b, field_strength := fstr, lowres_size := ls,
               moving_grid_ref := getRefGrid ms,
               fixed_grid_ref := getRefGrid fs }) := by
  constructor
  · intro h
    unfold DDFTransformation3D.init
    by_cases h1 : pyTupleLe ls ms = true
    · rw [if_pos h1, if_neg (fun h2 => h ⟨h1, h2⟩)]
    · rw [if_neg h1]
  · intro h1 h2
    unfold DDFTransformation3D.init
    rw [if_pos h1, if_pos h2]

/-- Witness for C10, from the repository test parametrization:
lowres (9,9,9) against moving size (3,3,3) fails the assert; lowres
(3,3,3) against sizes (9,9,9) succeeds. -/
theorem C10_witness :
    DDFTransformation3D.init (fun _ => ()) [3, 3, 3] [9, 9, 9] 2 5
        [9, 9, 9] = none ∧
    DDFTransformation3D.init (fun _ => ()) [9, 9, 9] [9, 9, 9] 2 5
        [3, 3, 3] =
      some { moving_image_size := [9, 9, 9], fixed_image_size := [9, 9, 9],
             batch_size := 2, field_strength := 5, lowres_size := [3, 3, 3],
             moving_grid_ref := (), fixed_grid_ref := () } :=
  ⟨(C10_ddf_init_assert (fun _ => ()) [3, 3, 3] [9, 9, 9] [9, 9, 9]
      2 5).1 (by decide),
   (C10_ddf_init_assert (fun _ => ()) [9, 9, 9] [9, 9, 9] [3, 3, 3]
      2 5).2 (by decide) (by decide)⟩

theorem runDraws_cons (ns : List Nat) (prob : ℚ) (opt : String) (g : Nat)
    (gs : List Nat) (s : Nat) :
    runDraws ns prob opt (g :: gs) s =
      (drawSample ns prob opt g s).bind (fun ps =>
        (runDraws ns prob opt gs ps.2).map
          (fun rest => mkSample ps.1 :: rest)) := rfl

theorem bernoulliDraw_one (s : Nat) : (bernoulliDraw 1 s).1 = true := by
  simp only [bernoulliDraw, randBelow]
  rw [decide_eq_true_eq]
  have hden : (1 : ℚ).den = 1 := rfl
  have hnum : (1 : ℚ).num = 1 := rfl
  rw [hden, hnum]
  rw [Int.ofNat_eq_natCast]
  have := Nat.mod_lt (lcg s) (show 0 < 1000000 by norm_num)
  omega

theorem drawSample_unknown (ns : List Nat) (opt : String) (g s : Nat)
    (hopt : ¬(opt = "forward" ∨ opt = "backward" ∨ opt = "unconstrained")) :
    drawSample ns 1 opt g s =
      Except.error ("Unknown intra_group_option, got " ++ opt) := by
  have hb : (bernoulliDraw 1 (randBelow s (ns.getD g 0)).2).1 = true :=
    bernoulliDraw_one _
  simp only [drawSample]
  rw [hb]
  simp [hopt]

/-- C4: an intra_group_option outside the three case-sensitive literals is
rejected with an error echoing the offending value at the point the option
is consumed: eagerly at construction when the exhaustive intra-group list
is built (sample_image_in_group = False, intra_group_prob = 1), and on the
lazy path before any sample is emitted by the generator
(sample_image_in_group = True, intra_group_prob = 1); the invalid value is
never silently replaced by a valid one. -/
theorem C4_unknown_option_error (ns : List Nat) (cfg : SampleConfig)
    (hopt : ¬(cfg.intra_group_option = "forward" ∨
      cfg.intra_group_option = "backward" ∨
      cfg.intra_group_option = "unconstrained"))
    (hp : cfg.intra_group_prob = 1) :
    (cfg.sample_image_in_group = false →
      GroupedDataLoader.init ns cfg =
        Except.error ("Unknown intra_group_option, got " ++
          cfg.intra_group_option)) ∧
    (cfg.sample_image_in_group = true → ns ≠ [] →
      ∀ L, GroupedDataLoader.init ns cfg = Except.ok L →
        L.sample_index_generator =
          Except.error ("Unknown intra_group_option, got " ++
            cfg.intra_group_option)) := by
  have h1 : ¬(cfg.intra_group_prob < 1 ∧ ns.length < 2) := by
    rw [hp]
    rintro ⟨h, -⟩
    exact absurd h (lt_irrefl 1)
  have h2 : ¬(cfg.sample_image_in_group = false ∧
      0 < cfg.intra_group_prob ∧ cfg.intra_group_prob < 1) := by
    rw [hp]
    rintro ⟨-, -, h⟩
    exact absurd h (lt_irrefl 1)
  have h4 : ¬(cfg.intra_group_prob = 0) := by
    rw [hp]; norm_num
  constructor
  · intro hs
    have h3 : ¬(cfg.sample_image_in_group = true) := by
      rw [hs]; simp
    have hg : get_intra_sample_indices ns cfg.intra_group_option =
        Except.error ("Unknown intra_group_option, got " ++
          cfg.intra_group_option) := by
      unfold get_intra_sample_indices
      rw [if_neg hopt]
    unfold GroupedDataLoader.init
    rw [if_neg h1, if_neg h2, if_neg h3, if_neg h4, hg]
  · intro hs hne L hL
    have hinit : GroupedDataLoader.init ns cfg = Except.ok
        { num_images_per_group := ns
          config := cfg
          sample_indices := none
          num_samples := ns.length
          loader_moving_image := { closed := false }
          loader_fixed_image := { closed := false } } := by
      unfold GroupedDataLoader.init
      rw [if_neg h1, if_neg h2, if_pos hs]
    rw [hinit] at hL
    injection hL with hL'
    subst hL'
    simp only [GroupedDataLoader.sample_index_generator]
    obtain ⟨m, hm⟩ : ∃ m, ns.length = m + 1 := by
      cases ns with
      | nil => exact absurd rfl hne
      | cons a t => exact ⟨t.length, rfl⟩
    rw [hm, List.range_succ_eq_map, hp]
    rw [runDraws_cons, drawSample_unknown ns cfg.intra_group_option 0
      (cfg.seed.getD 0) hopt]
    rfl

/-- Witness for C4 with the test's wrong-case literal "Forward": the eager
intra path rejects it at construction, and the lazy generator rejects it
before emitting any sample. -/
theorem C4_witness :
    GroupedDataLoader.init [2, 2] ⟨true, "all", 1, "Forward", false, none⟩ =
      Except.error ("Unknown intra_group_option, got " ++ "Forward") ∧
    GroupedDataLoader.sample_index_generator
      { num_images_per_group := [2, 2]
        config := ⟨true, "all", 1, "Forward", true, some 0⟩
        sample_indices := none
        num_samples := 2
        loader_moving_image := { closed := false }
        loader_fixed_image := { closed := false } } =
      Except.error ("Unknown intra_group_option, got " ++ "Forward") := by
  constructor
  · exact (C4_unknown_option_error [2, 2]
      ⟨true, "all", 1, "Forward", false, none⟩ (by decide) rfl).1 rfl
  · exact (C4_unknown_option_error [2, 2]
      ⟨true, "all", 1, "Forward", true, some 0⟩ (by decide) rfl).2 rfl
      (by decide) _ rfl

/-- C3 counterexample: on the dataset with two single-image groups and
intra_group_prob = 0 with per-group sub-sampling, every draw is forced
(one representative, one inter-group partner), so the loaders built with
seed 0 and seed 1 emit exactly the same index sequence, contradicting the
claim that differing seeds always yield sequences that are not
element-wise equal. -/
theorem C3_counterexample :
    drawnIndices [1, 1] ⟨true, "all", 0, "forward", true, some 0⟩ =
      drawnIndices [1, 1] ⟨true, "all", 0, "forward", true, some 1⟩ ∧
    drawnIndices [1, 1] ⟨true, "all", 0, "forward", true, some 0⟩ =
      some [0, 0, 1, 0, 1, 0, 0, 0] := by
  constructor
  · decide
  · decide

/-- C3 (amended): the drawn sequence is a pure function of the loader
state, so two loaders built from the identical dataset and configuration
(in particular the identical seed) always yield element-wise equal
sequences; differing seeds need not differ on every dataset (they coincide
when every draw is forced), but they do produce different sequences on
configurations with genuine choice, e.g. group sizes [2, 2] with
per-group sub-sampling and seeds 0 versus 1. -/
theorem C3_seed_determinism (ns : List Nat) (cfg : SampleConfig)
    (L₁ L₂ : GroupedDataLoader)
    (h₁ : GroupedDataLoader.init ns cfg = Except.ok L₁)
    (h₂ : GroupedDataLoader.init ns cfg = Except.ok L₂) :
    L₁.sample_index_generator = L₂.sample_index_generator ∧
    drawnIndices [2, 2] ⟨true, "all", 0, "forward", true, some 0⟩ ≠
      drawnIndices [2, 2] ⟨true, "all", 0, "forward", true, some 1⟩ ∧
    drawnIndices [2, 2] ⟨true, "all", 0, "forward", true, some 0⟩ ≠
      none := by
  refine ⟨?_, by decide, by decide⟩
  have h := h₁.symm.trans h₂
  injection h with h'
  rw [h']

/-- Witness for the amended C3: two loaders built identically with seed 0
have equal generator outputs, and the two-by-two dataset separates seeds
0 and 1. -/
theorem C3_witness :
    GroupedDataLoader.sample_index_generator
        { num_images_per_group := [2, 2]
          config := ⟨true, "all", 0, "forward", true, some 0⟩
          sample_indices := none
          num_samples := 2
          loader_moving_image := { closed := false }
          loader_fixed_image := { closed := false } } =
      GroupedDataLoader.sample_index_generator
        { num_images_per_group := [2, 2]
          config := ⟨true, "all", 0, "forward", true, some 0⟩
          sample_indices := none
          num_samples := 2
          loader_moving_image := { closed := false }
          loader_fixed_image := { closed := false } } ∧
    drawnIndices [2, 2] ⟨true, "all", 0, "forward", true, some 0⟩ ≠
      drawnIndices [2, 2] ⟨true, "all", 0, "forward", true, some 1⟩ :=
  ⟨(C3_seed_determinism [2, 2] ⟨true, "all", 0, "forward", true, some 0⟩
      _ _ rfl rfl).1,
   (C3_seed_determinism [2, 2] ⟨true, "all", 0, "forward", true, some 0⟩
      _ _ rfl rfl).2.1⟩

/-- C8: when the input dictionary has no moving label, the affine
transform, the DDF transform, and resize_inputs all return a dictionary
with exactly the keys moving_image, fixed_image and indices: both label
slots of the output are empty (a supplied fixed_label is silently
dropped), and indices is passed through unchanged. -/
theorem C8_unlabeled_output_keys {G T I Tr R : Type}
    (self : AffineTransformation3D G) (dself : DDFTransformation3D G)
    (gen : Nat → ℚ → R → Tr × R)
    (genD : Nat → List Nat → Nat → List Nat → R → Tr × R)
    (resample warp : T → G → Tr → T) (resize3d : T → List Nat → T)
    (rng : R) (inputs : PreprocessInputs T I) (ms fs : List Nat)
    (h : inputs.moving_label = none) :
    (self.transform gen resample rng inputs).moving_label = none ∧
    (self.transform gen resample rng inputs).fixed_label = none ∧
    (self.transform gen resample rng inputs).indices = inputs.indices ∧
    (dself.transform genD warp rng inputs).moving_label = none ∧
    (dself.transform genD warp rng inputs).fixed_label = none ∧
    (dself.transform genD warp rng inputs).indices = inputs.indices ∧
    (resize_inputs resize3d inputs ms fs).moving_label = none ∧
    (resize_inputs resize3d inputs ms fs).fixed_label = none ∧
    (resize_inputs resize3d inputs ms fs).indices = inputs.indices := by
  obtain ⟨mi, fi, ml, fl, ind⟩ := inputs
  simp only at h
  subst h
  simp [AffineTransformation3D.transform, DDFTransformation3D.transform,
    resize_inputs]

/-- Witness for C8: a concrete unlabeled input that still carries a
fixed_label; the label is dropped and indices pass through. -/
theorem C8_witness :
    ((⟨1, 1/10, (), ()⟩ : AffineTransformation3D Unit).transform
        (fun b _ r => (b, r)) (fun t _ tr => t + tr) 0
        (⟨5, 7, none, some 9, 3⟩ : PreprocessInputs Nat Nat)).moving_label =
      none ∧
    ((⟨1, 1/10, (), ()⟩ : AffineTransformation3D Unit).transform
        (fun b _ r => (b, r)) (fun t _ tr => t + tr) 0
        (⟨5, 7, none, some 9, 3⟩ : PreprocessInputs Nat Nat)).fixed_label =
      none ∧
    ((⟨1, 1/10, (), ()⟩ : AffineTransformation3D Unit).transform
        (fun b _ r => (b, r)) (fun t _ tr => t + tr) 0
        (⟨5, 7, none, some 9, 3⟩ : PreprocessInputs Nat Nat)).indices = 3 ∧
    ((⟨[2, 2, 2], [2, 2, 2], 1, 1, [1, 1, 1], (), ()⟩ :
        DDFTransformation3D Unit).transform
        (fun b _ _ _ r => (b, r)) (fun t _ tr => t + tr) 0
        (⟨5, 7, none, some 9, 3⟩ : PreprocessInputs Nat Nat)).fixed_label =
      none ∧
    (resize_inputs (fun t _ => t)
        (⟨5, 7, none, some 9, 3⟩ : PreprocessInputs Nat Nat)
        [2, 2, 2] [2, 2, 2]).fixed_label = none := by
  obtain ⟨h1, h2, h3, h4, h5, h6, h7, h8, h9⟩ :=
    C8_unlabeled_output_keys
      (⟨1, 1/10, (), ()⟩ : AffineTransformation3D Unit)
      (⟨[2, 2, 2], [2, 2, 2], 1, 1, [1, 1, 1], (), ()⟩ :
        DDFTransformation3D Unit)
      (fun b _ r => (b, r)) (fun b _ _ _ r => (b, r))
      (fun t _ tr => t + tr) (fun t _ tr => t + tr) (fun t _ => t)
      (0 : Nat) (⟨5, 7, none, some 9, 3⟩ : PreprocessInputs Nat Nat)
      [2, 2, 2] [2, 2, 2] rfl
  exact ⟨h1, h2, h3, h5, h8⟩

/-- C9: on fully labeled inputs each role's random transform is generated
once per call and reused for that role's image and label: there is a
single moving transform (the first generator draw) warping both the
moving image and the moving label against the moving grid, and a single
fixed transform (the second draw) warping both the fixed image and the
fixed label against the fixed grid, for the affine and the DDF
transforms alike. -/
theorem C9_labels_share_role_transform {G T I Tr R : Type}
    (self : AffineTransformation3D G) (dself : DDFTransformation3D G)
    (gen : Nat → ℚ → R → Tr × R)
    (genD : Nat → List Nat → Nat → List Nat → R → Tr × R)
    (resample warp : T → G → Tr → T)
    (rng : R) (inputs : PreprocessInputs T I) (ml fl : T)
    (hml : inputs.moving_label = some ml)
    (hfl : inputs.fixed_label = some fl) :
    (∃ tm tf,
      tm = (gen self.batch_size self.scale rng).1 ∧
      tf = (gen self.batch_size self.scale
        (gen self.batch_size self.scale rng).2).1 ∧
      (self.transform gen resample rng inputs).moving_image =
        resample inputs.moving_image self.moving_grid_ref tm ∧
      (self.transform gen resample rng inputs).moving_label =
        some (resample ml self.moving_grid_ref tm) ∧
      (self.transform gen resample rng inputs).fixed_image =
        resample inputs.fixed_image self.fixed_grid_ref tf ∧
      (self.transform gen resample rng inputs).fixed_label =
        some (resample fl self.fixed_grid_ref tf)) ∧
    (∃ tm tf,
      tm = (genD dself.batch_size dself.moving_image_size
        dself.field_strength dself.lowres_size rng).1 ∧
      tf = (genD dself.batch_size dself.fixed_image_size
        dself.field_strength dself.lowres_size
        (genD dself.batch_size dself.moving_image_size
          dself.field_strength dself.lowres_size rng).2).1 ∧
      (dself.transform genD warp rng inputs).moving_image =
        warp inputs.moving_image dself.moving_grid_ref tm ∧
      (dself.transform genD warp rng inputs).moving_label =
        some (warp ml dself.moving_grid_ref tm) ∧
      (dself.transform genD warp rng inputs).fixed_image =
        warp inputs.fixed_image dself.fixed_grid_ref tf ∧
      (dself.transform genD warp rng inputs).fixed_label =
        some (warp fl dself.fixed_grid_ref tf)) := by
  obtain ⟨mi, fi, mlab, flab, ind⟩ := inputs
  simp only at hml hfl
  subst hml
  subst hfl
  constructor
  · exact ⟨_, _, rfl, rfl, rfl, rfl, rfl, rfl⟩
  · exact ⟨_, _, rfl, rfl, rfl, rfl, rfl, rfl⟩

/-- Witness for C9: concrete labeled inputs through both transforms. -/
theorem C9_witness :
    (∃ tm tf,
      tm = ((fun (b : Nat) (_ : ℚ) (r : Nat) => (b + r, r + 1)) 1 (1/10) 0).1 ∧
      tf = ((fun (b : Nat) (_ : ℚ) (r : Nat) => (b + r, r + 1)) 1 (1/10)
        ((fun (b : Nat) (_ : ℚ) (r : Nat) => (b + r, r + 1)) 1 (1/10) 0).2).1 ∧
      ((⟨1, 1/10, (), ()⟩ : AffineTransformation3D Unit).transform
          (fun b _ r => (b + r, r + 1)) (fun t _ tr => t + tr) 0
          (⟨5, 7, some 11, some 13, 3⟩ :
            PreprocessInputs Nat Nat)).moving_image = 5 + tm ∧
      ((⟨1, 1/10, (), ()⟩ : AffineTransformation3D Unit).transform
          (fun b _ r => (b + r, r + 1)) (fun t _ tr => t + tr) 0
          (⟨5, 7, some 11, some 13, 3⟩ :
            PreprocessInputs Nat Nat)).moving_label = some (11 + tm) ∧
      ((⟨1, 1/10, (), ()⟩ : AffineTransformation3D Unit).transform
          (fun b _ r => (b + r, r + 1)) (fun t _ tr => t + tr) 0
          (⟨5, 7, some 11, some 13, 3⟩ :
            PreprocessInputs Nat Nat)).fixed_image = 7 + tf ∧
      ((⟨1, 1/10, (), ()⟩ : AffineTransformation3D Unit).transform
          (fun b _ r => (b + r, r + 1)) (fun t _ tr => t + tr) 0
          (⟨5, 7, some 11, some 13, 3⟩ :
            PreprocessInputs Nat Nat)).fixed_label = some (13 + tf)) := by
  obtain ⟨haff, -⟩ :=
    C9_labels_share_role_transform
      (⟨1, 1/10, (), ()⟩ : AffineTransformation3D Unit)
      (⟨[2, 2, 2], [2, 2, 2], 1, 1, [1, 1, 1], (), ()⟩ :
        DDFTransformation3D Unit)
      (fun b _ r => (b + r, r + 1)) (fun b _ _ _ r => (b + r, r + 1))
      (fun t _ tr => t + tr) (fun t _ tr => t + tr)
      (0 : Nat) (⟨5, 7, some 11, some 13, 3⟩ : PreprocessInputs Nat Nat)
      11 13 rfl rfl
  exact haff
